import Mathlib

/-!
Verification of the CSV ingestion and record-gateway core
(`csv_data_ingestion.py` and `app.py`).

The development shallowly embeds the data model and the SQL-statement
builders of the two modules:

* scalar cell values (`Value`) as read from the tabular file;
* the frame of loaded data (`DataFrame`), column-ordered with row-major
  value storage, mirroring the pandas frame the ingestion class holds;
* the dtype-to-relational-type mapping and the schema/insert/search
  statement builders, translated line by line from the Python source;
* a relational `Table` state together with the semantics of the single
  statements the record gateway issues (insert, select-where, update,
  delete-returning), modelling the external PostgreSQL store's behaviour
  on exactly the statement shapes the code emits.

All definitions are executable, so every theorem can be checked on
concrete inputs.
-/

namespace CsvSpec

/-- Scalar cell values observed in a loaded column.  The payloads carry
integers, rationals (for floating-point cells), text, booleans and
timestamps; a separate null marker stands for a missing cell. -/
inductive Value where
  | vInt : Int → Value
  | vNum : Rat → Value
  | vStr : String → Value
  | vBool : Bool → Value
  | vTime : String → Value
  | vNull : Value
deriving DecidableEq, Repr

/-- Whether the value is an integer cell. -/
def Value.isInt : Value → Bool
  | .vInt _ => true
  | _ => false

/-- Whether the value is a floating-point cell. -/
def Value.isNum : Value → Bool
  | .vNum _ => true
  | _ => false

/-- Whether the value is a text cell. -/
def Value.isStr : Value → Bool
  | .vStr _ => true
  | _ => false

/-- Whether the value is a boolean cell. -/
def Value.isBool : Value → Bool
  | .vBool _ => true
  | _ => false

/-- Whether the value is a timestamp cell. -/
def Value.isTime : Value → Bool
  | .vTime _ => true
  | _ => false

/-- Whether the value is a missing cell. -/
def Value.isNull : Value → Bool
  | .vNull => true
  | _ => false

/-- Modelled from the external tabular reader (pandas, spec section 6):
the dtype string pandas assigns to a column of observed values as loaded
by `read_csv`.  An all-integer column is `int64`; a column of integers,
floats and missing cells (missing cells surface as NaN floats) is
`float64`; uniform booleans are `bool`; uniform timestamps are
`datetime64[ns]`; everything else, mixed columns included, is `object`. -/
def seriesDtype (vs : List Value) : String :=
  if vs.isEmpty then "object"
  else if vs.all Value.isInt then "int64"
  else if vs.all (fun v => v.isInt || v.isNum || v.isNull) then "float64"
  else if vs.all Value.isBool then "bool"
  else if vs.all Value.isTime then "datetime64[ns]"
  else "object"

/-- The `dtype_mapping` dictionary of `_create_table_with_id`
(`csv_data_ingestion.py` lines 57-63), read through `dict.get` with the
default `TEXT` (line 68): any dtype outside the mapping falls back to
`TEXT`. -/
def dtype_mapping (dt : String) : String :=
  if dt = "int64" then "INTEGER"
  else if dt = "float64" then "NUMERIC"
  else if dt = "object" then "TEXT"
  else if dt = "datetime64[ns]" then "TIMESTAMP"
  else if dt = "bool" then "BOOLEAN"
  else "TEXT"

/-- The composed Type Inferencer: the relational type chosen for an
observed value column (`dtype_mapping.get(str(self.df[column].dtype),
'TEXT')`). -/
def inferType (vs : List Value) : String :=
  dtype_mapping (seriesDtype vs)

/-- The loaded frame: ordered column names plus row-major rows of cell
values, mirroring the pandas frame held by `CsvDataIngestion`. -/
structure DataFrame where
  columns : List String
  rows : List (List Value)
deriving DecidableEq, Repr

/-- Pandas `DataFrame.empty`: true when either axis has length zero. -/
def DataFrame.isEmpty (df : DataFrame) : Bool :=
  df.rows.isEmpty || df.columns.isEmpty

/-- The values of the column at position `i`, one per row (missing cells
read as null). -/
def DataFrame.colValues (df : DataFrame) (i : Nat) : List Value :=
  df.rows.map (fun r => r.getD i Value.vNull)

/-- Claim C5: the Type Inferencer is a total, deterministic function from
an observed value column to exactly one of INTEGER, NUMERIC, TEXT,
TIMESTAMP, BOOLEAN; an all-integer column maps to INTEGER, introducing
one non-numeric value changes the result to TEXT, and every unknown or
mixed input (the empty column included) resolves to TEXT rather than
failing. -/
theorem claim5_type_inferencer_total (vs l1 l2 : List Value) (s : String) :
    (inferType vs = "INTEGER" ∨ inferType vs = "NUMERIC" ∨ inferType vs = "TEXT" ∨
      inferType vs = "TIMESTAMP" ∨ inferType vs = "BOOLEAN")
    ∧ (vs ≠ [] → vs.all Value.isInt = true → inferType vs = "INTEGER")
    ∧ (l1.all Value.isInt = true → l2.all Value.isInt = true →
        inferType (l1 ++ Value.vStr s :: l2) = "TEXT")
    ∧ inferType [] = "TEXT" := by
  refine ⟨?_, ?_, ?_, rfl⟩
  · unfold inferType seriesDtype
    split_ifs <;> simp [dtype_mapping]
  · intro hne hint
    unfold inferType seriesDtype
    rw [if_neg (by simp [List.isEmpty_iff, hne]), if_pos hint]
    rfl
  · intro _ _
    have hstr : ∀ p : Value → Bool, p (Value.vStr s) = false →
        (l1 ++ Value.vStr s :: l2).all p = false := by
      intro p hp
      simp [List.all_append, hp]
    unfold inferType seriesDtype
    rw [if_neg (by simp), if_neg (by rw [hstr Value.isInt rfl]; simp),
      if_neg (by rw [hstr (fun v => v.isInt || v.isNum || v.isNull) (by rfl)]; simp),
      if_neg (by rw [hstr Value.isBool rfl]; simp),
      if_neg (by rw [hstr Value.isTime rfl]; simp)]
    rfl

/-- Witness for C5 at concrete columns: `[7, 8]` infers INTEGER and
`[7, "x", 8]` infers TEXT. -/
theorem claim5_witness :
    (inferType [Value.vInt 7, Value.vInt 8] = "INTEGER" ∨
      inferType [Value.vInt 7, Value.vInt 8] = "NUMERIC" ∨
      inferType [Value.vInt 7, Value.vInt 8] = "TEXT" ∨
      inferType [Value.vInt 7, Value.vInt 8] = "TIMESTAMP" ∨
      inferType [Value.vInt 7, Value.vInt 8] = "BOOLEAN")
    ∧ inferType [Value.vInt 7, Value.vInt 8] = "INTEGER"
    ∧ inferType ([Value.vInt 7] ++ Value.vStr "x" :: [Value.vInt 8]) = "TEXT" := by
  obtain ⟨h1, h2, h3, _⟩ :=
    claim5_type_inferencer_total [Value.vInt 7, Value.vInt 8] [Value.vInt 7] [Value.vInt 8] "x"
  exact ⟨h1, h2 (by decide) (by decide), h3 (by decide) (by decide)⟩

/-- Errors the ingestion class raises: the deliberate
`ValueError("No data loaded from CSV")` of `_create_table_with_id`
(line 55); the exception pandas raises when `self.df[column].dtype`
(line 68) is evaluated on a duplicated label (label selection then
yields a sub-frame, which has no `dtype` attribute); and the deliberate
`ValueError("No search conditions provided")` of `search_data`
(line 123). -/
inductive IngestError where
  | noDataLoaded
  | dupLabel
  | noConditions
deriving DecidableEq, Repr

/-- The quoted column definition emitted for the column labelled `c`
(`csv_data_ingestion.py` line 69): the double-quoted label followed by
the relational type inferred from the column's pandas dtype. -/
def colDefStr (df : DataFrame) (c : String) : String :=
  "\"" ++ c ++ "\" " ++ dtype_mapping (seriesDtype (df.colValues (df.columns.indexOf c)))

/-- One iteration of the column loop of `_create_table_with_id` (lines
67-69): pandas label selection `self.df[column]` succeeds exactly when
the label occurs once; a duplicated (or absent) label makes the dtype
lookup raise instead of producing a definition. -/
def colDef (df : DataFrame) (c : String) : Except IngestError String :=
  if df.columns.count c = 1 then .ok (colDefStr df c) else .error .dupLabel

/-- The column loop of `_create_table_with_id`, iterated over
`self.df.columns` in source order, propagating the first raised
exception. -/
def buildColDefs (df : DataFrame) : List String → Except IngestError (List String)
  | [] => .ok []
  | c :: cs => do
    let d ← colDef df c
    let ds ← buildColDefs df cs
    pure (d :: ds)

/-- The synthetic primary key definition placed first in the column
definition list (line 65). -/
def pkColumnDef : String := "_csv_import_id_ SERIAL PRIMARY KEY"

/-- The `create_table_query` f-string of lines 71-75, with the joined
column definitions interpolated; whitespace reproduces the Python
triple-quoted literal. -/
def create_table_query (schema table : String) (defs : List String) : String :=
  "\n            CREATE TABLE IF NOT EXISTS " ++ schema ++ "." ++ table ++
    " (\n                " ++ String.intercalate ", " defs ++ "\n            )\n        "

/-- The Schema Builder `_create_table_with_id` (lines 53-80): raises when
no data is loaded, otherwise emits the creation statement for the
synthetic primary key plus one definition per column. -/
def create_table_with_id (schema table : String) (df : DataFrame) :
    Except IngestError String :=
  if df.isEmpty then .error .noDataLoaded
  else
    match buildColDefs df df.columns with
    | .error e => .error e
    | .ok ds => .ok (create_table_query schema table (pkColumnDef :: ds))

/-- The `placeholders` string of `_insert_data` (line 89):
comma-joined `%s` markers, one per column. -/
def placeholders (n : Nat) : String :=
  String.intercalate "," (List.replicate n "%s")

/-- The `columns_str` string of `_insert_data` (line 90): comma-joined
double-quoted column labels. -/
def columns_str (cols : List String) : String :=
  String.intercalate "," (cols.map (fun c => "\"" ++ c ++ "\""))

/-- The `insert_query` f-string of lines 92-96; whitespace (including
the trailing blanks of lines 93 and 94) reproduces the Python
triple-quoted literal.  The statement text depends only on the schema,
table and column labels. -/
def insert_query (schema table : String) (cols : List String) : String :=
  "\n                INSERT INTO " ++ schema ++ "." ++ table ++ " \n                (" ++
    columns_str cols ++ ") \n                VALUES (" ++ placeholders cols.length ++
    ")\n            "

/-- One statement execution handed to the store driver: the SQL text and
the positionally bound parameter tuple. -/
structure Exec where
  sql : String
  params : List Value
deriving DecidableEq, Repr

/-- The Bulk Loader `_insert_data` (lines 82-102) as the list of
statement executions it issues: nothing for an empty frame (warning
only, lines 83-85), nothing when there are no columns (line 88), and
otherwise one parameterized insert per source row, in source order, the
row's values bound as the parameter tuple (line 101). -/
def insert_data (schema table : String) (df : DataFrame) : List Exec :=
  if df.isEmpty then []
  else if df.columns.isEmpty then []
  else df.rows.map (fun r => ⟨insert_query schema table df.columns, r⟩)

/-- One row of the target table: the synthetic primary key value plus
the data columns as an association list in schema order. -/
structure Record where
  id : Nat
  fields : List (String × Value)
deriving DecidableEq, Repr

/-- The target table state: its data column labels (the synthetic
primary key column is implicit), its rows, and the next value of the
auto-incrementing key. -/
structure Table where
  schemaCols : List String
  recs : List Record
  nextId : Nat
deriving DecidableEq, Repr

/-- Store semantics of one parameterized insert issued by the Bulk
Loader: the store appends a row holding the bound values under the
insert's column list and draws the next key from the SERIAL sequence. -/
def applyInsert (t : Table) (e : Exec) : Table :=
  { t with recs := t.recs ++ [⟨t.nextId, t.schemaCols.zip e.params⟩],
           nextId := t.nextId + 1 }

/-- The table as the Schema Builder leaves it in the default overwrite
mode (`_drop_table_if_exists` then `CREATE TABLE`): the frame's columns,
no rows, the key sequence at 1. -/
def freshTable (df : DataFrame) : Table :=
  ⟨df.columns, [], 1⟩

/-- The constructor pipeline of `CsvDataIngestion` in the default
overwrite mode (lines 26-29): drop, build the schema, then bulk-load
every row into the fresh table. -/
def ingest (schema table : String) (df : DataFrame) : Except IngestError Table :=
  match create_table_with_id schema table df with
  | .error e => .error e
  | .ok _ => .ok ((insert_data schema table df).foldl applyInsert (freshTable df))

theorem buildColDefs_ok (df : DataFrame) (l : List String)
    (h : ∀ c ∈ l, df.columns.count c = 1) :
    buildColDefs df l = .ok (l.map (colDefStr df)) := by
  induction l with
  | nil => rfl
  | cons c cs ih =>
    have hc : df.columns.count c = 1 := h c (List.mem_cons_self c cs)
    have hcs := ih (fun d hd => h d (List.mem_cons_of_mem c hd))
    simp [buildColDefs, colDef, hc, hcs]
    rfl

theorem create_table_with_id_ok (schema table : String) (df : DataFrame)
    (hnd : df.columns.Nodup) (hne : df.isEmpty = false) :
    create_table_with_id schema table df =
      .ok (create_table_query schema table (pkColumnDef :: df.columns.map (colDefStr df))) := by
  have hok := buildColDefs_ok df df.columns
    (fun c hc => List.count_eq_one_of_mem hnd hc)
  simp [create_table_with_id, hne, hok]

theorem foldl_applyInsert_length (l : List Exec) (t : Table) :
    ((l.foldl applyInsert t).recs).length = t.recs.length + l.length := by
  induction l generalizing t with
  | nil => rfl
  | cons e es ih =>
    rw [List.foldl_cons, ih]
    simp [applyInsert]
    omega

theorem insert_data_params (schema table : String) (df : DataFrame)
    (hne : df.isEmpty = false) :
    (insert_data schema table df).map Exec.params = df.rows := by
  have hcols : df.columns.isEmpty = false := by
    simp [DataFrame.isEmpty] at hne
    simp [hne]
  unfold insert_data
  rw [if_neg (by simp [hne]), if_neg (by simp [hcols])]
  have hid : (Exec.params ∘ fun r =>
      ({ sql := insert_query schema table df.columns, params := r } : Exec)) = id := rfl
  rw [List.map_map, hid, List.map_id]

theorem insert_data_sql (schema table : String) (df : DataFrame) :
    ∀ e ∈ insert_data schema table df, e.sql = insert_query schema table df.columns := by
  intro e he
  unfold insert_data at he
  split_ifs at he with h1 h2
  · exact absurd he (List.not_mem_nil e)
  · exact absurd he (List.not_mem_nil e)
  · obtain ⟨r, _, hr⟩ := List.mem_map.mp he
    rw [← hr]

/-- Claim C1: for every non-empty Source Table, the Schema Builder
followed by the Bulk Loader produces a Target Table whose row count
equals the Source Table's row count — the loader issues exactly one
insert per source row, in source order, skipping and duplicating
nothing. -/
theorem claim1_bulk_load_row_count (schema table : String) (df : DataFrame)
    (hne : df.isEmpty = false) (hnd : df.columns.Nodup) :
    ∃ tbl, ingest schema table df = .ok tbl
      ∧ tbl.recs.length = df.rows.length
      ∧ (insert_data schema table df).length = df.rows.length
      ∧ (insert_data schema table df).map Exec.params = df.rows := by
  have hcreate := create_table_with_id_ok schema table df hnd hne
  have hparams := insert_data_params schema table df hne
  have hlen : (insert_data schema table df).length = df.rows.length := by
    rw [← hparams, List.length_map]
  refine ⟨(insert_data schema table df).foldl applyInsert (freshTable df), ?_, ?_, hlen, hparams⟩
  · simp [ingest, hcreate]
  · rw [foldl_applyInsert_length]
    simp [freshTable, hlen]

/-- Witness for C1: ingesting a two-row frame yields a two-row table. -/
theorem claim1_witness :
    ∃ tbl, ingest "public" "csv_data_table01"
        ⟨["name", "age"], [[Value.vStr "John", Value.vInt 30],
          [Value.vStr "Jane", Value.vInt 25]]⟩ = .ok tbl
      ∧ tbl.recs.length = 2
      ∧ (insert_data "public" "csv_data_table01"
          ⟨["name", "age"], [[Value.vStr "John", Value.vInt 30],
            [Value.vStr "Jane", Value.vInt 25]]⟩).length = 2
      ∧ (insert_data "public" "csv_data_table01"
          ⟨["name", "age"], [[Value.vStr "John", Value.vInt 30],
            [Value.vStr "Jane", Value.vInt 25]]⟩).map Exec.params =
          [[Value.vStr "John", Value.vInt 30], [Value.vStr "Jane", Value.vInt 25]] :=
  claim1_bulk_load_row_count "public" "csv_data_table01"
    ⟨["name", "age"], [[Value.vStr "John", Value.vInt 30],
      [Value.vStr "Jane", Value.vInt 25]]⟩ (by decide) (by decide)

/-- Claim C9: the Bulk Loader's statement text is a function of the
column labels only, never of the row values — frames with the same
columns yield the identical insert statement, and every row's values
reach the store only as the bound parameter tuple. -/
theorem claim9_insert_sql_value_independent (schema table : String) (df1 df2 : DataFrame)
    (hcols : df1.columns = df2.columns) :
    (∀ e1 ∈ insert_data schema table df1, ∀ e2 ∈ insert_data schema table df2,
      e1.sql = e2.sql)
    ∧ (∀ e ∈ insert_data schema table df1, e.sql = insert_query schema table df1.columns)
    ∧ (df1.isEmpty = false → (insert_data schema table df1).map Exec.params = df1.rows) := by
  refine ⟨?_, insert_data_sql schema table df1, insert_data_params schema table df1⟩
  intro e1 h1 e2 h2
  rw [insert_data_sql schema table df1 e1 h1, insert_data_sql schema table df2 e2 h2, hcols]

/-- Witness for C9: two frames sharing the columns but holding different
values produce inserts with the same statement text. -/
theorem claim9_witness :
    (∀ e1 ∈ insert_data "public" "csv_data_table01"
        ⟨["name"], [[Value.vStr "John"]]⟩,
      ∀ e2 ∈ insert_data "public" "csv_data_table01"
        ⟨["name"], [[Value.vStr "Robert\x27); DROP TABLE students;--"]]⟩,
      e1.sql = e2.sql)
    ∧ (∀ e ∈ insert_data "public" "csv_data_table01" ⟨["name"], [[Value.vStr "John"]]⟩,
        e.sql = insert_query "public" "csv_data_table01" ["name"])
    ∧ ((⟨["name"], [[Value.vStr "John"]]⟩ : DataFrame).isEmpty = false →
        (insert_data "public" "csv_data_table01"
          ⟨["name"], [[Value.vStr "John"]]⟩).map Exec.params = [[Value.vStr "John"]]) :=
  claim9_insert_sql_value_independent "public" "csv_data_table01"
    ⟨["name"], [[Value.vStr "John"]]⟩
    ⟨["name"], [[Value.vStr "Robert\x27); DROP TABLE students;--"]]⟩ rfl

/-- Counterexample for C6: a frame whose two descriptors collide on the
quoted identifier `"a"` does not make the Schema Builder fail with its
deliberate schema error (the `ValueError` modelled by `noDataLoaded`);
instead the by-name dtype lookup on the duplicated label crashes with an
attribute error from the frame library — there is no collision check. -/
theorem claim6_counterexample :
    create_table_with_id "public" "csv_data_table01"
        ⟨["a", "a"], [[Value.vStr "x", Value.vStr "y"]]⟩ = .error IngestError.dupLabel
    ∧ IngestError.dupLabel ≠ IngestError.noDataLoaded :=
  ⟨rfl, by decide⟩

/-- Claim C6 as amended: the Schema Builder raises its deliberate
schema error exactly when the frame is empty; it has no
identifier-collision check (colliding labels instead crash the dtype
lookup, see the counterexample); for a non-empty frame with unique
labels it emits a creation statement whose definition list has the
synthetic primary key first and one double-quoted column per descriptor
in source order, typed by the Type Inferencer. -/
theorem claim6_schema_builder_amended (schema table : String) (df : DataFrame)
    (hnd : df.columns.Nodup) :
    ((create_table_with_id schema table df = .error IngestError.noDataLoaded) ↔
      df.isEmpty = true)
    ∧ (df.isEmpty = false →
        create_table_with_id schema table df =
          .ok (create_table_query schema table
            (pkColumnDef :: df.columns.map (colDefStr df))))
    ∧ (∀ i c, df.columns.get? i = some c →
        (df.columns.map (colDefStr df)).get? i =
          some ("\"" ++ c ++ "\" " ++ inferType (df.colValues i))) := by
  refine ⟨⟨?_, ?_⟩, create_table_with_id_ok schema table df hnd, ?_⟩
  · intro herr
    by_contra hne
    rw [create_table_with_id_ok schema table df hnd (by simpa using hne)] at herr
    exact Except.noConfusion herr
  · intro hemp
    simp [create_table_with_id, hemp]
  · intro i c hc
    obtain ⟨h, hget⟩ := List.get?_eq_some.mp hc
    have hidx : List.indexOf c df.columns = i := by
      have := List.indexOf_getElem hnd i h
      rwa [show df.columns[i] = c from hget] at this
    rw [List.get?_eq_getElem?, List.getElem?_map, ← List.get?_eq_getElem?, hc, Option.map_some']
    unfold colDefStr inferType
    rw [hidx]

/-- Witness for C6 as amended, at a concrete one-column frame. -/
theorem claim6_witness :
    ((create_table_with_id "public" "csv_data_table01"
        ⟨["name"], [[Value.vStr "John"]]⟩ = .error IngestError.noDataLoaded) ↔
      (⟨["name"], [[Value.vStr "John"]]⟩ : DataFrame).isEmpty = true)
    ∧ ((⟨["name"], [[Value.vStr "John"]]⟩ : DataFrame).isEmpty = false →
        create_table_with_id "public" "csv_data_table01"
            ⟨["name"], [[Value.vStr "John"]]⟩ =
          .ok (create_table_query "public" "csv_data_table01"
            (pkColumnDef :: (["name"] : List String).map
              (colDefStr ⟨["name"], [[Value.vStr "John"]]⟩))))
    ∧ (∀ i c, (["name"] : List String).get? i = some c →
        ((["name"] : List String).map
            (colDefStr ⟨["name"], [[Value.vStr "John"]]⟩)).get? i =
          some ("\"" ++ c ++ "\" " ++
            inferType ((⟨["name"], [[Value.vStr "John"]]⟩ : DataFrame).colValues i))) :=
  claim6_schema_builder_amended "public" "csv_data_table01"
    ⟨["name"], [[Value.vStr "John"]]⟩ (by decide)

/-- ASCII case folding over the characters of a string, the canonical
form the store's LOWER function computes on text. -/
def lowerStr (s : String) : String :=
  ⟨s.data.map Char.toLower⟩

/-- Store semantics of LOWER applied to a bound value: text is
case-folded, every other value passes through. -/
def sqlLower : Value → Value
  | .vStr s => .vStr (lowerStr s)
  | v => v

/-- Store evaluation of the per-column comparison the compilers emit for
a bound value `v` against a stored cell: an SQL equality involving NULL
on either side is never satisfied; otherwise the case-folded equality
`LOWER(col) = LOWER(param)` when `v` is text and case sensitivity is
off, and direct equality otherwise — the guard mirrors line 129 of
`search_data` and line 52 of `build_where_clause`. -/
def condMatches (stored v : Value) (case_sensitive : Bool) : Bool :=
  if stored.isNull || v.isNull then false
  else if v.isStr && !case_sensitive then decide (sqlLower stored = sqlLower v)
  else decide (stored = v)

/-- The per-column comparison string `search_data` emits
(`csv_data_ingestion.py` lines 128-132), with `%s` placeholders. -/
def whereClausePct (col : String) (v : Value) (case_sensitive : Bool) : String :=
  if v.isStr && !case_sensitive then "LOWER(\"" ++ col ++ "\") = LOWER(%s)"
  else "\"" ++ col ++ "\" = %s"

/-- The predicate-compiling prefix of `search_data` (lines 113-135): an
error when no conditions are given (line 122), otherwise the WHERE
fragment joined with the caller's operator — which is never validated —
and the positional parameter list. -/
def search_data (conditions : List (String × Value)) (operator : String)
    (case_sensitive : Bool) : Except IngestError (String × List Value) :=
  if conditions.isEmpty then .error .noConditions
  else
    .ok (String.intercalate (" " ++ operator ++ " ")
        (conditions.map (fun p => whereClausePct p.1 p.2 case_sensitive)),
      conditions.map Prod.snd)

/-- The per-column comparison string `build_where_clause` emits
(`app.py` lines 52-55), with a named parameter. -/
def whereClauseNamed (col : String) (v : Value) (case_sensitive : Bool)
    (pname : String) : String :=
  if v.isStr && !case_sensitive then "LOWER(\"" ++ col ++ "\") = LOWER(:" ++ pname ++ ")"
  else "\"" ++ col ++ "\" = :" ++ pname

/-- The `build_where_clause` helper of `app.py` (lines 45-59): the WHERE
fragment joined with the caller's operator and the named parameter map.
It validates nothing — empty conditions yield the empty fragment. -/
def build_where_clause (conditions : List (String × Value)) (operator : String)
    (case_sensitive : Bool) : String × List (String × Value) :=
  (String.intercalate (" " ++ operator ++ " ")
      (conditions.enum.map (fun p =>
        whereClauseNamed p.2.1 p.2.2 case_sensitive ("param_" ++ toString p.1))),
   conditions.enum.map (fun p => ("param_" ++ toString p.1, p.2.2)))

/-- Claim C2: both compilers emit the case-folded comparison exactly
when the bound value is text and case sensitivity is off, and the
direct-equality comparison otherwise; consequently a case-insensitive
search for "john" matches a stored "John" while a case-sensitive one
does not. -/
theorem claim2_case_folding_exactly_for_text (col pname : String) (v : Value)
    (case_sensitive : Bool) :
    (whereClausePct col v case_sensitive = "LOWER(\"" ++ col ++ "\") = LOWER(%s)" ↔
      (v.isStr = true ∧ case_sensitive = false))
    ∧ ((v.isStr = false ∨ case_sensitive = true) →
        whereClausePct col v case_sensitive = "\"" ++ col ++ "\" = %s")
    ∧ (whereClauseNamed col v case_sensitive pname =
        "LOWER(\"" ++ col ++ "\") = LOWER(:" ++ pname ++ ")" ↔
      (v.isStr = true ∧ case_sensitive = false))
    ∧ ((v.isStr = false ∨ case_sensitive = true) →
        whereClauseNamed col v case_sensitive pname = "\"" ++ col ++ "\" = :" ++ pname)
    ∧ condMatches (Value.vStr "John") (Value.vStr "john") false = true
    ∧ condMatches (Value.vStr "John") (Value.vStr "john") true = false := by
  have hlen : ∀ s t : String, s.length ≠ t.length → s ≠ t := by
    intro s t hne heq
    exact hne (congrArg String.length heq)
  have hguard : (v.isStr && !case_sensitive) = true ↔
      (v.isStr = true ∧ case_sensitive = false) := by
    rw [Bool.and_eq_true, Bool.not_eq_true']
  have hplain : (v.isStr = false ∨ case_sensitive = true) →
      (v.isStr && !case_sensitive) = false := by
    rintro (h | h) <;> simp [h]
  refine ⟨⟨?_, ?_⟩, ?_, ⟨?_, ?_⟩, ?_, by decide, by decide⟩
  · intro heq
    by_cases hg : (v.isStr && !case_sensitive) = true
    · exact hguard.mp hg
    · exfalso
      rw [whereClausePct, if_neg hg] at heq
      refine hlen _ _ ?_ heq
      simp only [String.length_append]
      have e1 : ("\"" : String).length = 1 := rfl
      have e2 : ("\" = %s" : String).length = 6 := rfl
      have e3 : ("LOWER(\"" : String).length = 7 := rfl
      have e4 : ("\") = LOWER(%s)" : String).length = 14 := rfl
      omega
  · intro ⟨h1, h2⟩
    rw [whereClausePct, if_pos (hguard.mpr ⟨h1, h2⟩)]
  · intro h
    rw [whereClausePct, if_neg (by simp [hplain h])]
  · intro heq
    by_cases hg : (v.isStr && !case_sensitive) = true
    · exact hguard.mp hg
    · exfalso
      rw [whereClauseNamed, if_neg hg] at heq
      refine hlen _ _ ?_ heq
      simp only [String.length_append]
      have e1 : ("\"" : String).length = 1 := rfl
      have e2 : ("\" = :" : String).length = 5 := rfl
      have e3 : ("LOWER(\"" : String).length = 7 := rfl
      have e4 : ("\") = LOWER(:" : String).length = 12 := rfl
      have e5 : (")" : String).length = 1 := rfl
      omega
  · intro ⟨h1, h2⟩
    rw [whereClauseNamed, if_pos (hguard.mpr ⟨h1, h2⟩)]
  · intro h
    rw [whereClauseNamed, if_neg (by simp [hplain h])]

/-- Witness for C2 at a concrete condition: a text value compiled
case-insensitively takes the folded form, and compiled case-sensitively
takes the direct form. -/
theorem claim2_witness :
    (whereClausePct "name" (Value.vStr "john") false =
        "LOWER(\"" ++ "name" ++ "\") = LOWER(%s)" ↔
      ((Value.vStr "john").isStr = true ∧ False = False))
    ∧ whereClausePct "name" (Value.vStr "john") true = "\"" ++ "name" ++ "\" = %s"
    ∧ condMatches (Value.vStr "John") (Value.vStr "john") false = true
    ∧ condMatches (Value.vStr "John") (Value.vStr "john") true = false := by
  obtain ⟨h1, h2, _, _, h5, h6⟩ :=
    claim2_case_folding_exactly_for_text "name" "param_0" (Value.vStr "john") false
  obtain ⟨_, hplain, _⟩ :=
    claim2_case_folding_exactly_for_text "name" "param_0" (Value.vStr "john") true
  exact ⟨by simpa using h1, hplain (Or.inr rfl), h5, h6⟩

/-- Counterexample for C3: with the unsupported combinator "XOR" and a
non-empty condition set, `search_data` does not fail — it emits a WHERE
fragment with the bogus combinator interpolated between the clauses. -/
theorem claim3_counterexample :
    search_data [("a", Value.vInt 1), ("b", Value.vInt 2)] "XOR" false =
      .ok ("\"a\" = %s XOR \"b\" = %s", [Value.vInt 1, Value.vInt 2]) := rfl

/-- Claim C3 as amended: the predicate compiler of `search_data` fails
exactly when the conditions mapping is empty, regardless of the
combinator, which is never validated; `build_where_clause` validates
nothing at all and maps empty conditions to the empty fragment instead
of failing. -/
theorem claim3_predicate_errors_amended (conditions : List (String × Value))
    (operator : String) (case_sensitive : Bool) :
    ((∃ e, search_data conditions operator case_sensitive = .error e) ↔ conditions = [])
    ∧ build_where_clause [] operator case_sensitive = ("", []) := by
  refine ⟨⟨?_, ?_⟩, rfl⟩
  · rintro ⟨e, he⟩
    by_contra hne
    rw [search_data, if_neg (by simp [List.isEmpty_iff, hne])] at he
    exact Except.noConfusion he
  · intro h
    subst h
    exact ⟨.noConditions, rfl⟩

/-- Witness for C3 as amended: the empty predicate makes `search_data`
fail while `build_where_clause` still returns the empty fragment. -/
theorem claim3_witness :
    ((∃ e, search_data [] "AND" false = .error e) ↔ ([] : List (String × Value)) = [])
    ∧ build_where_clause [] "AND" false = ("", []) :=
  claim3_predicate_errors_amended [] "AND" false

/-- Client-visible failure of a record-gateway operation: every
exception caught inside a handler surfaces as HTTP 400 with the
underlying message (`raise HTTPException(status_code=400, ...)`), and a
missing record surfaces as HTTP 404. -/
inductive ApiError where
  | badRequest : String → ApiError
  | notFound : ApiError
deriving DecidableEq, Repr

/-- The columns of the target table as the store sees them: the
synthetic primary key column followed by the data columns. -/
def tableCols (t : Table) : List String :=
  "_csv_import_id_" :: t.schemaCols

/-- The stored cell a quoted label resolves to on one row: the synthetic
key column holds the row's integer key, every other label is looked up
among the data columns. -/
def Record.colValue (r : Record) (c : String) : Option Value :=
  if c = "_csv_import_id_" then some (Value.vInt (Int.ofNat r.id))
  else r.fields.lookup c

/-- Whether a stored record satisfies one compiled per-column
comparison, resolving the column by its quoted label (the synthetic key
column included). -/
def Record.matchesCond (r : Record) (case_sensitive : Bool)
    (p : String × Value) : Bool :=
  match r.colValue p.1 with
  | some stored => condMatches stored p.2 case_sensitive
  | none => false

/-- Store evaluation of the joined WHERE fragment for the two supported
combinators: conjunction for AND, disjunction for OR. -/
def rowMatches (r : Record) (conds : List (String × Value)) (operator : String)
    (case_sensitive : Bool) : Bool :=
  if operator = "AND" then conds.all (r.matchesCond case_sensitive)
  else conds.any (r.matchesCond case_sensitive)

/-- Store semantics (external relational store, spec section 6) of
executing the SELECT that `query_by_text` builds from
`build_where_clause`'s fragment: an empty fragment (`WHERE` followed by
nothing) and an unknown combinator between the comparisons are malformed
SQL rejected at parse time; a quoted column label that is not a column
of the created table (the synthetic key column and the data columns) is
an undefined-column error at analysis time; otherwise the store returns
the matching rows, up to the limit, in table order. -/
def execSelectWhere (t : Table) (conds : List (String × Value)) (operator : String)
    (case_sensitive : Bool) (lim : Nat) : Except String (List Record) :=
  if conds.isEmpty then .error "malformed SQL: empty WHERE fragment"
  else if operator ≠ "AND" ∧ operator ≠ "OR" then
    .error "malformed SQL: unknown combinator"
  else if ¬ (conds.all (fun p => (tableCols t).contains p.1)) then
    .error "undefined column"
  else
    .ok ((t.recs.filter (fun r => rowMatches r conds operator case_sensitive)).take lim)

/-- The `query_by_text` endpoint (`app.py` lines 61-87): the predicate
is compiled by `build_where_clause`, the statement is executed by the
store, and any raised error is caught and surfaced as HTTP 400. -/
def query_by_text (t : Table) (conds : List (String × Value)) (operator : String)
    (case_sensitive : Bool) (lim : Nat) : Except ApiError (List Record) :=
  match execSelectWhere t conds operator case_sensitive lim with
  | .error e => .error (.badRequest e)
  | .ok rs => .ok rs

/-- The `delete_items` endpoint (`app.py` lines 111-128) together with
the store's execution of the generated statement: the ids are
interpolated into an IN list (line 115), so an empty request produces
`IN ()`, which the store rejects as malformed SQL, surfaced as HTTP 400;
otherwise the store removes every row whose key is listed and RETURNING
reports the removed keys in table order. -/
def delete_items (t : Table) (ids : List Nat) : Except ApiError (Table × List Nat) :=
  if ids.isEmpty then .error (.badRequest "malformed SQL: empty IN list")
  else
    .ok ({ t with recs := t.recs.filter (fun r => !(ids.contains r.id)) },
      (t.recs.filter (fun r => ids.contains r.id)).map Record.id)

/-- Claim C10: delete-batch on an empty id list is not a successful
empty result — the generated IN list is empty and the operation fails at
the public interface. -/
theorem claim10_empty_delete_batch_fails (t : Table) :
    delete_items t [] = .error (.badRequest "malformed SQL: empty IN list")
    ∧ ∀ res, delete_items t [] ≠ .ok res := by
  refine ⟨rfl, ?_⟩
  intro res h
  rw [show delete_items t [] = .error (.badRequest "malformed SQL: empty IN list") from rfl] at h
  exact Except.noConfusion h

/-- Witness for C10 at a concrete table: the empty delete-batch fails. -/
theorem claim10_witness :
    delete_items ⟨["name"], [⟨1, [("name", Value.vStr "Jane")]⟩], 2⟩ [] =
        .error (.badRequest "malformed SQL: empty IN list")
    ∧ ∀ res, delete_items ⟨["name"], [⟨1, [("name", Value.vStr "Jane")]⟩], 2⟩ [] ≠
        .ok res :=
  claim10_empty_delete_batch_fails ⟨["name"], [⟨1, [("name", Value.vStr "Jane")]⟩], 2⟩

/-- Counterexample for C7: on the empty key set, delete-batch does not
return the existing subset (the empty list) — it fails, because the
generated IN list is empty. -/
theorem claim7_counterexample :
    delete_items ⟨["name"], [⟨1, [("name", Value.vStr "John")]⟩], 2⟩ [] =
      .error (.badRequest "malformed SQL: empty IN list") := rfl

/-- Claim C7 as amended: for every non-empty set of requested keys,
delete-batch returns exactly the requested keys that existed (absent
keys are silently omitted), and repeating the same delete-batch returns
the empty set and leaves the table unchanged — delete is idempotent on
non-empty key sets. -/
theorem claim7_delete_idempotent_amended (t : Table) (ids : List Nat)
    (h : ids ≠ []) :
    ∃ t2 ds, delete_items t ids = .ok (t2, ds)
      ∧ (∀ k, k ∈ ds ↔ (k ∈ ids ∧ k ∈ t.recs.map Record.id))
      ∧ delete_items t2 ids = .ok (t2, []) := by
  have hne : ids.isEmpty = false := by
    cases ids with
    | nil => exact absurd rfl h
    | cons a l => rfl
  refine ⟨_, _, by rw [delete_items, if_neg (by simp [hne])], ?_, ?_⟩
  · intro k
    simp only [List.mem_map, List.mem_filter]
    constructor
    · rintro ⟨r, ⟨hr, hc⟩, hk⟩
      exact ⟨hk ▸ List.elem_iff.mp hc, r, hr, hk⟩
    · rintro ⟨hk, r, hr, hid⟩
      exact ⟨r, ⟨hr, List.elem_iff.mpr (hid ▸ hk)⟩, hid⟩
  · rw [delete_items, if_neg (by simp [hne])]
    have hfil : (t.recs.filter (fun r => !(ids.contains r.id))).filter
        (fun r => ids.contains r.id) = [] := by
      rw [List.filter_filter]
      apply List.filter_eq_nil_iff.mpr
      intro r _
      cases ids.contains r.id <;> decide
    have hfil2 : (t.recs.filter (fun r => !(ids.contains r.id))).filter
        (fun r => !(ids.contains r.id)) = t.recs.filter (fun r => !(ids.contains r.id)) := by
      rw [List.filter_filter]
      congr 1
      funext r
      cases ids.contains r.id <;> rfl
    simp only [hfil, hfil2, List.map_nil]

/-- Witness for C7 as amended: requesting keys 2 and 5 against a table
holding keys 1 and 2 deletes exactly key 2, and repeating the request
deletes nothing. -/
theorem claim7_witness :
    ∃ t2 ds, delete_items
        ⟨["name"], [⟨1, [("name", Value.vStr "John")]⟩,
          ⟨2, [("name", Value.vStr "Jane")]⟩], 3⟩ [2, 5] = .ok (t2, ds)
      ∧ (∀ k, k ∈ ds ↔ (k ∈ [2, 5] ∧ k ∈ ([⟨1, [("name", Value.vStr "John")]⟩,
          ⟨2, [("name", Value.vStr "Jane")]⟩] : List Record).map Record.id))
      ∧ delete_items t2 [2, 5] = .ok (t2, []) :=
  claim7_delete_idempotent_amended
    ⟨["name"], [⟨1, [("name", Value.vStr "John")]⟩,
      ⟨2, [("name", Value.vStr "Jane")]⟩], 3⟩ [2, 5] (by decide)

/-- Claim C4: a read-by-predicate request that references a column
absent from the Target Table Schema — the synthetic key column plus the
data columns — fails (the store's undefined-column rejection surfaces as
HTTP 400) and never succeeds with an empty row set as if the predicate
were valid but unmatched. -/
theorem claim4_unknown_column_fails (t : Table) (conds : List (String × Value))
    (operator : String) (case_sensitive : Bool) (lim : Nat)
    (h : ∃ p ∈ conds, (tableCols t).contains p.1 = false) :
    (∃ e, query_by_text t conds operator case_sensitive lim = .error (.badRequest e))
    ∧ ∀ rs, query_by_text t conds operator case_sensitive lim ≠ .ok rs := by
  obtain ⟨p, hp, hpc⟩ := h
  have hne : conds.isEmpty = false := by
    cases conds with
    | nil => exact absurd hp (List.not_mem_nil p)
    | cons a l => rfl
  have hsel : ∃ e, execSelectWhere t conds operator case_sensitive lim = .error e := by
    have hall : conds.all (fun q => (tableCols t).contains q.1) = false := by
      cases hx : conds.all (fun q => (tableCols t).contains q.1) with
      | false => rfl
      | true =>
        have := List.all_eq_true.mp hx p hp
        rw [hpc] at this
        exact Bool.noConfusion this
    rw [execSelectWhere, if_neg (by simp [hne])]
    by_cases hop : operator ≠ "AND" ∧ operator ≠ "OR"
    · rw [if_pos hop]
      exact ⟨_, rfl⟩
    · rw [if_neg hop,
        if_pos (show ¬ ((conds.all fun q => (tableCols t).contains q.1) = true) by
          rw [hall]; exact Bool.false_ne_true)]
      exact ⟨_, rfl⟩
  obtain ⟨e, he⟩ := hsel
  constructor
  · exact ⟨e, by rw [query_by_text, he]⟩
  · intro rs hok
    rw [query_by_text, he] at hok
    exact Except.noConfusion hok

/-- Witness for C4: querying the unknown column "city" against a table
whose only column is "name" fails and returns no row set. -/
theorem claim4_witness :
    (∃ e, query_by_text ⟨["name"], [⟨1, [("name", Value.vStr "John")]⟩], 2⟩
        [("city", Value.vStr "Paris")] "AND" false 10 = .error (.badRequest e))
    ∧ ∀ rs, query_by_text ⟨["name"], [⟨1, [("name", Value.vStr "John")]⟩], 2⟩
        [("city", Value.vStr "Paris")] "AND" false 10 ≠ .ok rs :=
  claim4_unknown_column_fails ⟨["name"], [⟨1, [("name", Value.vStr "John")]⟩], 2⟩
    [("city", Value.vStr "Paris")] "AND" false 10 (by decide)

/-- Store semantics of the SET clause on one row: every column listed in
the mapping takes its new value, every other column keeps its value;
positions (schema order) are preserved. -/
def updateFields (fields cols : List (String × Value)) : List (String × Value) :=
  fields.map (fun q => (q.1, (cols.lookup q.1).getD q.2))

/-- Store semantics of the SET clause on one record: listing the key
column itself rebinds the key (only an integer can bind to the SERIAL
column), otherwise the key is untouched; the data columns are updated
one by one. -/
def updateRec (r : Record) (cols : List (String × Value)) : Record :=
  { id :=
      match cols.lookup "_csv_import_id_" with
      | some (Value.vInt n) => n.toNat
      | _ => r.id,
    fields := updateFields r.fields cols }

/-- The `update_item` endpoint (`app.py` lines 151-180) together with
the store's execution of the generated statement: an empty column
mapping produces `SET` with no assignments (malformed SQL, HTTP 400); a
listed label that is not a column of the table is an undefined-column
error (HTTP 400); otherwise every row whose key matches is updated,
RETURNING hands back the first updated row, and an empty RETURNING set
surfaces as HTTP 404. -/
def update_item (t : Table) (item_id : Nat) (cols : List (String × Value)) :
    Except ApiError (Table × Record) :=
  if cols.isEmpty then .error (.badRequest "malformed SQL: empty SET clause")
  else if ¬ (cols.all (fun p => (tableCols t).contains p.1)) then
    .error (.badRequest "undefined column")
  else
    match t.recs.filter (fun r => r.id == item_id) with
    | [] => .error .notFound
    | r :: _ =>
      .ok ({ t with
              recs := t.recs.map (fun s => if s.id = item_id then updateRec s cols else s) },
        updateRec r cols)

theorem lookup_updateFields (fields cols : List (String × Value)) (k : String) :
    (updateFields fields cols).lookup k =
      (fields.lookup k).map (fun v => (cols.lookup k).getD v) := by
  induction fields with
  | nil => rfl
  | cons q fs ih =>
    obtain ⟨a, b⟩ := q
    by_cases hk : k = a
    · subst hk
      simp [updateFields, List.lookup_cons]
    · have hbeq : (k == a) = false := by
        simp [hk]
      simpa [updateFields, List.lookup_cons, hbeq] using ih

theorem lookup_isSome_of_mem_keys {l : List (String × Value)} {k : String}
    (h : k ∈ l.map Prod.fst) : ∃ v, l.lookup k = some v := by
  induction l with
  | nil => exact absurd h (List.not_mem_nil k)
  | cons q fs ih =>
    obtain ⟨a, b⟩ := q
    by_cases hk : k = a
    · subst hk
      exact ⟨b, by simp [List.lookup_cons]⟩
    · simp only [List.map_cons, List.mem_cons] at h
      rcases h with hh | ht
      · exact absurd hh hk
      · obtain ⟨v, hv⟩ := ih ht
        exact ⟨v, by simp [List.lookup_cons, show (k == a) = false by simp [hk], hv]⟩

theorem lookup_eq_none_of_not_mem_keys {l : List (String × Value)} {k : String}
    (h : k ∉ l.map Prod.fst) : l.lookup k = none := by
  induction l with
  | nil => rfl
  | cons q fs ih =>
    obtain ⟨a, b⟩ := q
    simp only [List.map_cons, List.mem_cons, not_or] at h
    obtain ⟨hk, hfs⟩ := h
    simp [List.lookup_cons, show (k == a) = false by simp [hk], ih hfs]

/-- Counterexample for C8: the claim quantifies over every column
mapping, but updating an existing key with the empty mapping does not
return the (unchanged) record — the endpoint emits `SET` with no
assignments, malformed SQL surfaced as HTTP 400; likewise a mapping
naming a column outside the table's schema fails with the store's
undefined-column rejection instead of replacing anything. -/
theorem claim8_counterexample :
    update_item ⟨["name"], [⟨1, [("name", Value.vStr "John")]⟩], 2⟩ 1 [] =
        .error (.badRequest "malformed SQL: empty SET clause")
    ∧ (∀ res, update_item ⟨["name"], [⟨1, [("name", Value.vStr "John")]⟩], 2⟩ 1 [] ≠
        .ok res)
    ∧ update_item ⟨["name"], [⟨1, [("name", Value.vStr "John")]⟩], 2⟩ 1
        [("city", Value.vStr "LA")] = .error (.badRequest "undefined column") := by
  refine ⟨rfl, ?_, rfl⟩
  intro res h
  exact Except.noConfusion h

/-- Claim C8 as amended: for every existing primary key and every
non-empty column mapping whose keys are data columns of the schema (the
synthetic key not among them), Update replaces exactly the listed
columns of that one record, leaves its unlisted columns and its key
unchanged, leaves every other record unchanged, and returns the
post-update record; updating an absent key fails with the not-found
error.  (An empty mapping or an unknown column instead fails with HTTP
400, see the counterexample.) -/
theorem claim8_update_frame (t : Table) (item_id : Nat)
    (cols : List (String × Value))
    (hne : cols ≠ [])
    (hcols : ∀ p ∈ cols, p.1 ∈ t.schemaCols)
    (hpk : "_csv_import_id_" ∉ t.schemaCols)
    (hwf : ∀ s ∈ t.recs, s.fields.map Prod.fst = t.schemaCols) :
    ((t.recs.filter (fun s => s.id == item_id) = []) →
      update_item t item_id cols = .error .notFound)
    ∧ (∀ r rest, t.recs.filter (fun s => s.id == item_id) = r :: rest →
        ∃ t2, update_item t item_id cols = .ok (t2, updateRec r cols)
          ∧ (updateRec r cols).id = r.id
          ∧ (∀ k, k ∈ cols.map Prod.fst →
              (updateRec r cols).fields.lookup k = cols.lookup k)
          ∧ (∀ k, k ∉ cols.map Prod.fst →
              (updateRec r cols).fields.lookup k = r.fields.lookup k)
          ∧ (∀ s ∈ t.recs, s.id ≠ item_id → s ∈ t2.recs)
          ∧ t2.recs.length = t.recs.length) := by
  have hnemp : cols.isEmpty = false := by
    cases cols with
    | nil => exact absurd rfl hne
    | cons a l => rfl
  have hall : cols.all (fun p => (tableCols t).contains p.1) = true :=
    List.all_eq_true.mpr fun p hp =>
      List.elem_iff.mpr (List.mem_cons_of_mem _ (hcols p hp))
  have hpkcols : cols.lookup "_csv_import_id_" = none :=
    lookup_eq_none_of_not_mem_keys fun hm => by
      rcases List.mem_map.mp hm with ⟨p, hp, hpk1⟩
      exact hpk (hpk1 ▸ hcols p hp)
  constructor
  · intro hfil
    rw [update_item, if_neg (by simp [hnemp]), if_neg (not_not_intro hall), hfil]
  · intro r rest hfil
    have hrmem : r ∈ t.recs :=
      (List.mem_filter.mp (hfil ▸ List.mem_cons_self r rest)).1
    have hrkeys : r.fields.map Prod.fst = t.schemaCols := hwf r hrmem
    refine ⟨{ t with
        recs := t.recs.map (fun s => if s.id = item_id then updateRec s cols else s) },
      ?_, ?_, ?_, ?_, ?_, ?_⟩
    · rw [update_item, if_neg (by simp [hnemp]), if_neg (not_not_intro hall), hfil]
    · rw [updateRec]
      simp [hpkcols]
    · intro k hk
      obtain ⟨w, hw⟩ := lookup_isSome_of_mem_keys hk
      have hkschema : k ∈ t.schemaCols := by
        rcases List.mem_map.mp hk with ⟨p, hp, hpk1⟩
        exact hpk1 ▸ hcols p hp
      obtain ⟨v, hv⟩ := lookup_isSome_of_mem_keys (l := r.fields)
        (by rw [hrkeys]; exact hkschema)
      rw [updateRec]
      simp only [lookup_updateFields, hv, hw, Option.map_some', Option.getD_some]
    · intro k hk
      have hnone : cols.lookup k = none := lookup_eq_none_of_not_mem_keys hk
      rw [updateRec]
      simp only [lookup_updateFields, hnone]
      cases r.fields.lookup k <;> rfl
    · intro s hs hsid
      exact List.mem_map.mpr ⟨s, hs, by rw [if_neg hsid]⟩
    · exact List.length_map t.recs _

/-- Witness for C8: updating the name of record 1 in a two-record table
changes exactly that column of that record. -/
theorem claim8_witness :
    ((([⟨1, [("name", Value.vStr "John"), ("city", Value.vStr "NY")]⟩,
        ⟨2, [("name", Value.vStr "Jane"), ("city", Value.vStr "LA")]⟩] :
          List Record).filter (fun s => s.id == 1) = []) →
      update_item ⟨["name", "city"],
        [⟨1, [("name", Value.vStr "John"), ("city", Value.vStr "NY")]⟩,
          ⟨2, [("name", Value.vStr "Jane"), ("city", Value.vStr "LA")]⟩], 3⟩ 1
        [("name", Value.vStr "Johnny")] = .error .notFound)
    ∧ (∀ r rest, ([⟨1, [("name", Value.vStr "John"), ("city", Value.vStr "NY")]⟩,
        ⟨2, [("name", Value.vStr "Jane"), ("city", Value.vStr "LA")]⟩] :
          List Record).filter (fun s => s.id == 1) = r :: rest →
        ∃ t2, update_item ⟨["name", "city"],
            [⟨1, [("name", Value.vStr "John"), ("city", Value.vStr "NY")]⟩,
              ⟨2, [("name", Value.vStr "Jane"), ("city", Value.vStr "LA")]⟩], 3⟩ 1
            [("name", Value.vStr "Johnny")] = .ok (t2, updateRec r [("name", Value.vStr "Johnny")])
          ∧ (updateRec r [("name", Value.vStr "Johnny")]).id = r.id
          ∧ (∀ k, k ∈ [("name", Value.vStr "Johnny")].map Prod.fst →
              (updateRec r [("name", Value.vStr "Johnny")]).fields.lookup k =
                [("name", Value.vStr "Johnny")].lookup k)
          ∧ (∀ k, k ∉ [("name", Value.vStr "Johnny")].map Prod.fst →
              (updateRec r [("name", Value.vStr "Johnny")]).fields.lookup k =
                r.fields.lookup k)
          ∧ (∀ s ∈ ([⟨1, [("name", Value.vStr "John"), ("city", Value.vStr "NY")]⟩,
              ⟨2, [("name", Value.vStr "Jane"), ("city", Value.vStr "LA")]⟩] :
                List Record), s.id ≠ 1 → s ∈ t2.recs)
          ∧ t2.recs.length = ([⟨1, [("name", Value.vStr "John"), ("city", Value.vStr "NY")]⟩,
              ⟨2, [("name", Value.vStr "Jane"), ("city", Value.vStr "LA")]⟩] :
                List Record).length) :=
  claim8_update_frame
    ⟨["name", "city"],
      [⟨1, [("name", Value.vStr "John"), ("city", Value.vStr "NY")]⟩,
        ⟨2, [("name", Value.vStr "Jane"), ("city", Value.vStr "LA")]⟩], 3⟩ 1
    [("name", Value.vStr "Johnny")] (by decide) (by decide) (by decide) (by decide)

end CsvSpec
